import Mathlib

/-!
Verification of the Media-Refinery pipeline core against its specification.

Shallow embedding of:
- src/app/services/vmaf_guardrail_service.py (quality guardrail)
- src/app/services/execution_service.py (saga execution engine and WAL recovery)
- src/app/core/orchestrator.py (state table, per-item dispatch, limiters)
- src/app/models/media.py, src/app/models/saga.py (data model enums)

Python dicts over string keys are embedded as association lists; the
filesystem is an association list from path to file size; floats that the
code compares (VMAF scores, thresholds) are embedded as rationals, which is
exact for the decimal literals involved.
-/

namespace MediaRefinery


/-- Plan status enum, from PlanStatus in src/app/models/media.py. -/
inductive PlanStatus
  | draft
  | approved
  | executing
  | completed
  | failed
deriving DecidableEq, Repr

/-- Saga WAL status enum, from SagaLogStatus in src/app/models/saga.py. -/
inductive SagaLogStatus
  | prepared
  | committed
  | cleaned
  | failed
deriving DecidableEq, Repr

/-! ### Python dict embedding (string-keyed association lists) -/

/-- Python d.get(k, dflt) on a string dict. -/
def dictGet (d : List (String × String)) (k dflt : String) : String :=
  match d.find? (fun p => p.1 == k) with
  | some p => p.2
  | none => dflt

/-- Python d[k] = v on a string dict: replace in place when the key is
present, append otherwise. -/
def dictSet (d : List (String × String)) (k v : String) : List (String × String) :=
  match d.find? (fun p => p.1 == k) with
  | some _ => d.map (fun p => if p.1 == k then (k, v) else p)
  | none => d ++ [(k, v)]

/-- Python truthiness of an optional dict: None and the empty dict are
falsy, a non-empty dict is truthy. -/
def pyTruthy (d : Option (List (String × String))) : Bool :=
  match d with
  | none => false
  | some l => !l.isEmpty

/-! ### Quality guardrail (src/app/services/vmaf_guardrail_service.py) -/

/-- QualityMetrics from src/app/services/quality_guard_service.py: both
scores are optional; the probe returns QualityMetrics() with vmaf=None when
the external tool fails. -/
structure QualityMetrics where
  vmaf : Option ℚ
  psnr : Option ℚ
deriving DecidableEq, Repr

/-- The slice of NormalizationPlan that check_and_update_quality reads and
writes (src/app/models/media.py). -/
structure GPlan where
  ffmpeg_args : Option (List (String × String))
  failed_quality_check : Bool
  plan_status : PlanStatus
  quality_metrics : Option QualityMetrics
deriving DecidableEq, Repr

/-- The bitrate escalation of check_and_update_quality lines 26-29:
str(int(plan.ffmpeg_args.get("bitrate", "1000")) * 2) stored back under the
key "bitrate". Python int and str on non-negative decimal strings are
modelled by pyIntNat and pyStrNat below, kernel-computable; the guardrail
only ever feeds int() decimal strings. -/
def parseDecimal : List Char → Nat → Nat
  | [], acc => acc
  | c :: t, acc => parseDecimal t (acc * 10 + (c.toNat - 48))

/-- Python int() applied to a non-negative decimal string. -/
def pyIntNat (s : String) : Nat := parseDecimal s.data 0

/-- Digit rendering with explicit fuel so the kernel can evaluate it. -/
def natDigitsAux : Nat → Nat → List Char
  | 0, _ => []
  | fuel + 1, n =>
    if n = 0 then [] else natDigitsAux fuel (n / 10) ++ [Char.ofNat (48 + n % 10)]

/-- Python str() applied to a natural number. -/
def pyStrNat (n : Nat) : String :=
  if n = 0 then "0" else String.mk (natDigitsAux (n + 1) n)

/-- The escalated bitrate value and its storage under the key "bitrate". -/
def bumpBitrate (d : List (String × String)) : List (String × String) :=
  dictSet d "bitrate" (pyStrNat (pyIntNat (dictGet d "bitrate" "1000") * 2))

/-- VMAFGuardrailService.check_and_update_quality, lines 13-46, with the
probe result passed as an argument (the service awaits vmaf_func and then
runs this pure decision logic; the DB update writes the same field values
it set on the plan object). -/
def check_and_update_quality (plan : GPlan) (metrics : QualityMetrics)
    (min_vmaf : ℚ) : GPlan :=
  let plan1 : GPlan := { plan with quality_metrics := some metrics }
  match metrics.vmaf with
  | some v =>
    if v < min_vmaf then
      { plan1 with
        failed_quality_check := true
        ffmpeg_args :=
          match plan1.ffmpeg_args with
          | some d => if pyTruthy (some d) then some (bumpBitrate d) else some d
          | none => none
        plan_status := PlanStatus.failed }
    else
      { plan1 with failed_quality_check := false, plan_status := PlanStatus.completed }
  | none =>
      { plan1 with failed_quality_check := false, plan_status := PlanStatus.completed }

/-- The literal plan of the spec's quality-gate test case: encode args hold
bitrate 1000. -/
def demoPlan : GPlan :=
  { ffmpeg_args := some [("bitrate", "1000")]
    failed_quality_check := false
    plan_status := PlanStatus.executing
    quality_metrics := none }

/-! ### Filesystem embedding

The saga and its recovery touch the filesystem through exists(),
stat().st_size, shutil.copy2, os.rename and os.remove. The filesystem is
an association list from path to file size; a path is present iff a file
exists there. -/

/-- File paths. -/
abbrev FPath := String

/-- Filesystem: association list from path to file size in bytes. -/
abbrev Fs := List (FPath × Nat)

/-- Path.exists() combined with stat(): the size of the file at p, when
one exists. -/
def fsLookup (fs : Fs) (p : FPath) : Option Nat :=
  (fs.find? (fun e => e.1 == p)).map (fun e => e.2)

/-- Path.exists(). -/
def fsExists (fs : Fs) (p : FPath) : Bool :=
  (fsLookup fs p).isSome

/-- exists() and stat().st_size > 0, the test used by both the idempotency
check and the recovery pass. -/
def fsNonEmptyAt (fs : Fs) (p : FPath) : Bool :=
  match fsLookup fs p with
  | some n => decide (0 < n)
  | none => false

/-- os.remove p (also the absorbing part of a write: at most one entry per
path is live). -/
def fsRemove (fs : Fs) (p : FPath) : Fs :=
  fs.filter (fun e => e.1 != p)

/-- Writing a file of size n at p (shutil.copy2 target). -/
def fsWrite (fs : Fs) (p : FPath) (n : Nat) : Fs :=
  fsRemove fs p ++ [(p, n)]

/-- os.rename src dst. Callers in the embedding only rename a path that
exists, where os.rename succeeds; renaming a path onto itself leaves the
file in place, as os.rename does. -/
def fsRename (fs : Fs) (src dst : FPath) : Fs :=
  match fsLookup fs src with
  | some n => fsWrite (fsRemove fs src) dst n
  | none => fs

/-! ### Saga execution engine (src/app/services/execution_service.py) -/

/-- A saga WAL row, from SagaFileMoveLog in src/app/models/saga.py
(timestamps and the generated id are irrelevant to the claims). -/
structure WalRow where
  plan_id : String
  src_path : FPath
  tmp_path : FPath
  dest_path : FPath
  status : SagaLogStatus
  error : Option String
deriving DecidableEq, Repr

/-- Observable events of one saga execution attempt, in program order:
database transitions of the plan row and the WAL row, and filesystem
mutations. -/
inductive Ev
  | planExecuting
  | walPrepared
  | copyTmp (p : FPath)
  | renameFile (src dst : FPath)
  | removeFile (p : FPath)
  | walFailed
  | walCommitted
  | planCompleted
  | planFailed (log : String)
deriving DecidableEq, Repr

/-- Result of one saga execution attempt. -/
structure SagaResult where
  fs : Fs
  plan_status : PlanStatus
  execution_log : String
  wal : Option WalRow
  trace : List Ev
deriving DecidableEq, Repr

/-- The temp path the saga derives from the target:
output_file.with_suffix(suffix + ".tmp"). -/
def tmpPathOf (target : FPath) : FPath := target ++ ".tmp"

/-- One execution attempt: the body of _execute_normalization_plan
(do_work, lines 67-231). The code takes the source from the plan itself
(line 60: src = Path(plan.target_path), so src equals the destination),
sets plan_status=executing, then under the destination lock runs
idempotency check, WAL prepare, copy to .tmp, size verification, the
transcode probe, atomic rename, WAL commit and plan completion; every
failure marks the WAL row failed, removes the partial temp file where the
code does, and the outer handler removes the output file when present and
marks the plan failed. lockOk models whether lock.acquire(timeout=10)
succeeds; transcodeOk models the exit status of the external transcode
invocation. Database writes are modelled as always succeeding. The
recovery helper defined further below is invoked by the code after a
successful attempt; at that point the attempt-local WAL row is committed,
so that call never changes it and is omitted here. -/
def sagaAttempt (target : FPath) (fs : Fs) (lockOk transcodeOk : Bool) : SagaResult :=
  let tmp := tmpPathOf target
  let src := target
  if lockOk = false then
    { fs := fs, plan_status := PlanStatus.failed, execution_log := "Lock timeout"
      wal := none, trace := [Ev.planExecuting, Ev.planFailed "Lock timeout"] }
  else if fsNonEmptyAt fs target then
    { fs := fs, plan_status := PlanStatus.completed, execution_log := ""
      wal := none, trace := [Ev.planExecuting, Ev.planCompleted] }
  else
    let row : WalRow :=
      { plan_id := "", src_path := src, tmp_path := tmp, dest_path := target
        status := SagaLogStatus.prepared, error := none }
    match fsLookup fs src with
    | none =>
      -- shutil.copy2 raises: the source is missing; rollback removes the
      -- temp file when one exists; the output does not exist here, so the
      -- outer handler removes nothing.
      { fs := fsRemove fs tmp
        plan_status := PlanStatus.failed
        execution_log := "copy failed"
        wal := some { row with status := SagaLogStatus.failed, error := some "copy failed" }
        trace := [Ev.planExecuting, Ev.walPrepared, Ev.walFailed]
          ++ (if fsExists fs tmp then [Ev.removeFile tmp] else [])
          ++ [Ev.planFailed "copy failed"] }
    | some sz =>
      if sz = 0 then
        -- Verification failure: the copied temp file is empty. The code
        -- marks the WAL row failed and raises without removing the temp
        -- file; the outer handler removes the (empty) output file.
        { fs := fsRemove (fsWrite fs tmp sz) target
          plan_status := PlanStatus.failed
          execution_log := "tmp file missing or empty"
          wal := some { row with status := SagaLogStatus.failed, error := some "tmp file missing or empty" }
          trace := [Ev.planExecuting, Ev.walPrepared, Ev.copyTmp tmp, Ev.walFailed,
            Ev.removeFile target, Ev.planFailed "tmp file missing or empty"] }
      else if transcodeOk = false then
        -- Transcode failure: WAL row failed, temp removed, outer handler
        -- removes the output file (present and non-empty here).
        { fs := fsRemove (fsRemove (fsWrite fs tmp sz) tmp) target
          plan_status := PlanStatus.failed
          execution_log := "ffmpeg failed"
          wal := some { row with status := SagaLogStatus.failed, error := some "ffmpeg failed" }
          trace := [Ev.planExecuting, Ev.walPrepared, Ev.copyTmp tmp, Ev.walFailed,
            Ev.removeFile tmp, Ev.removeFile target, Ev.planFailed "ffmpeg failed"] }
      else
        -- Success: atomic rename, WAL committed, then plan completed.
        { fs := fsRename (fsWrite fs tmp sz) tmp target
          plan_status := PlanStatus.completed
          execution_log := ""
          wal := some { row with status := SagaLogStatus.committed }
          trace := [Ev.planExecuting, Ev.walPrepared, Ev.copyTmp tmp,
            Ev.renameFile tmp target, Ev.walCommitted, Ev.planCompleted] }

/-- Is this event one of the filesystem mutations the ordering claim names
(temp write, rename to destination)? -/
def isFsMutation (e : Ev) : Bool :=
  match e with
  | Ev.copyTmp _ => true
  | Ev.renameFile _ _ => true
  | _ => false

/-- Is this event any filesystem write at all (temp write, rename,
removal)? -/
def isFsWrite (e : Ev) : Bool :=
  match e with
  | Ev.copyTmp _ => true
  | Ev.renameFile _ _ => true
  | Ev.removeFile _ => true
  | _ => false

/-- Scan of a trace checking the saga ordering discipline: every temp
write or rename is preceded by WAL-prepared and not preceded by
WAL-committed (so all mutation sits between prepare and commit), and
WAL-committed is never preceded by plan-completed (so commit precedes
completion whenever both occur). The three flags record whether
WAL-prepared, WAL-committed, plan-completed have been seen. -/
def traceOrdered : List Ev → Bool → Bool → Bool → Bool
  | [], _, _, _ => true
  | e :: t, sawPrep, sawCommit, sawDone =>
    match e with
    | Ev.copyTmp _ => sawPrep && !sawCommit && traceOrdered t sawPrep sawCommit sawDone
    | Ev.renameFile _ _ => sawPrep && !sawCommit && traceOrdered t sawPrep sawCommit sawDone
    | Ev.walPrepared => traceOrdered t true sawCommit sawDone
    | Ev.walCommitted => !sawDone && traceOrdered t sawPrep true sawDone
    | Ev.planCompleted => traceOrdered t sawPrep sawCommit true
    | _ => traceOrdered t sawPrep sawCommit sawDone

/-- Is this event the WAL-committed transition? -/
def isCommitEv (e : Ev) : Bool :=
  match e with
  | Ev.walCommitted => true
  | _ => false

/-! ### Orchestrator state table and per-item dispatch
(src/app/core/orchestrator.py, src/app/models/media.py) -/

/-- The members of the FileState enum, src/app/models/media.py lines
12-21. -/
def fileStateValues : List String :=
  ["pending", "scanning", "scanned", "enriched", "planned", "executed",
   "validated", "audited", "error"]

/-- Membership in the FileState enum. -/
def isFileState (s : String) : Bool := fileStateValues.contains s

/-- One STATE_MAP entry: handler service, success next-state, failure
state. -/
structure StateInfo where
  service : String
  next : String
  fail : String
deriving DecidableEq, Repr

/-- STATE_MAP of src/app/core/orchestrator.py lines 19-50. Keys and values
are the strings the orchestrator compares and assigns. -/
def STATE_MAP (s : String) : Option StateInfo :=
  if s = "pending" then some { service := "scanner", next := "scanned", fail := "error" }
  else if s = "scanned" then
    some { service := "classifier", next := "classified", fail := "error" }
  else if s = "classified" then
    some { service := "enricher", next := "enriched", fail := "enrichment_failed" }
  else if s = "enriched" then some { service := "planner", next := "planned", fail := "error" }
  else if s = "planned" then some { service := "executor", next := "executed", fail := "error" }
  else if s = "executed" then
    some { service := "validator", next := "validated", fail := "error" }
  else none

/-- The MediaItem fields per-item dispatch reads and writes. -/
structure Item where
  state : String
  retry_count : Nat
  celery_task_id : Option String
deriving DecidableEq, Repr

/-- The success arm of _dispatch (lines 143-146 and 127-130): advance to
the next-state and reset retry_count. -/
def dispatchSuccess (item : Item) (info : StateInfo) : Item :=
  { item with state := info.next, retry_count := 0 }

/-- The failure arm of _dispatch (lines 131-136 and 148-153): move to the
failure-state, increment retry_count, and force state error when
retry_count exceeds 3. -/
def dispatchFailure (item : Item) (info : StateInfo) : Item :=
  let it1 : Item := { item with state := info.fail, retry_count := item.retry_count + 1 }
  if it1.retry_count > 3 then { it1 with state := "error" } else it1

/-- The executor first-touch arm of _dispatch (lines 117-123): record a
task id and set state executing. -/
def dispatchExecutorStart (item : Item) : Item :=
  { item with celery_task_id := some "fake-task-id", state := "executing" }

/-- One poll-cycle treatment of a single item: the actionability filter of
_process_actionable_items (line 86, only STATE_MAP keys are dispatched)
followed by _dispatch (lines 108-156). handlerOk is whether the stage
handler succeeded; celeryState is the monitored Celery result state used
by the executor branch. -/
def cycleStep (handlerOk : Bool) (celeryState : String) (item : Item) : Item :=
  match STATE_MAP item.state with
  | none => item
  | some info =>
    if info.service = "executor" then
      match item.celery_task_id with
      | none => dispatchExecutorStart item
      | some _ =>
        if celeryState = "SUCCESS" then dispatchSuccess item info
        else if celeryState = "FAILURE" ∨ celeryState = "REVOKED" then
          dispatchFailure item info
        else item
    else if handlerOk then dispatchSuccess item info
    else dispatchFailure item info

/-- n consecutive poll cycles in which the handler fails whenever it is
invoked. -/
def failCycles : Nat → Item → Item
  | 0, it => it
  | n + 1, it => failCycles n (cycleStep false "FAILURE" it)

/-! ### Bounded concurrency (src/app/core/orchestrator.py lines 58-59 and
90-106)

The orchestrator creates two counting limiters, asyncio.Semaphore(5) for
enricher dispatches and asyncio.Semaphore(2) for executor dispatches, and
wraps each dispatched coroutine in _with_semaphore, which holds one permit
of its limiter for the duration of the dispatch. The scheduler is modelled
as a transition system over task counts: a waiting task of a kind may
start only while its limiter has a permit free, taking one; a finishing
task returns its permit. -/

/-- Scheduler state: per-kind counts of waiting, running and finished
tasks, and the free permits of the two limiters. -/
structure SchedState where
  execWaiting : Nat
  execRunning : Nat
  execDone : Nat
  enrichWaiting : Nat
  enrichRunning : Nat
  enrichDone : Nat
  execAvail : Nat
  enrichAvail : Nat
deriving DecidableEq, Repr

/-- Initial state of one poll cycle: nExec executor dispatches and nEnrich
enricher dispatches are fanned out, all waiting; the limiters hold their
construction sizes, 2 and 5. -/
def initSched (nExec nEnrich : Nat) : SchedState :=
  { execWaiting := nExec, execRunning := 0, execDone := 0
    enrichWaiting := nEnrich, enrichRunning := 0, enrichDone := 0
    execAvail := 2, enrichAvail := 5 }

/-- Interleaving steps of the scheduler: entering and leaving the
_with_semaphore region of either limiter. -/
inductive SchedStep : SchedState → SchedState → Prop
  | startExec (s : SchedState) (hw : 0 < s.execWaiting) (ha : 0 < s.execAvail) :
      SchedStep s { s with execWaiting := s.execWaiting - 1
                           execRunning := s.execRunning + 1
                           execAvail := s.execAvail - 1 }
  | finishExec (s : SchedState) (hr : 0 < s.execRunning) :
      SchedStep s { s with execRunning := s.execRunning - 1
                           execDone := s.execDone + 1
                           execAvail := s.execAvail + 1 }
  | startEnrich (s : SchedState) (hw : 0 < s.enrichWaiting) (ha : 0 < s.enrichAvail) :
      SchedStep s { s with enrichWaiting := s.enrichWaiting - 1
                           enrichRunning := s.enrichRunning + 1
                           enrichAvail := s.enrichAvail - 1 }
  | finishEnrich (s : SchedState) (hr : 0 < s.enrichRunning) :
      SchedStep s { s with enrichRunning := s.enrichRunning - 1
                           enrichDone := s.enrichDone + 1
                           enrichAvail := s.enrichAvail + 1 }

/-- Reachability from a start state by any interleaving of steps. -/
inductive SchedReach (s0 : SchedState) : SchedState → Prop
  | refl : SchedReach s0 s0
  | step {s t : SchedState} : SchedReach s0 s → SchedStep s t → SchedReach s0 t

/-- The permit-accounting invariant of each limiter. -/
def SchedInv (s : SchedState) : Prop :=
  s.execAvail + s.execRunning = 2 ∧ s.enrichAvail + s.enrichRunning = 5

/-- A concrete scheduler state in which both executor permits are taken
while enricher work also runs. -/
def busyState : SchedState :=
  { execWaiting := 1, execRunning := 2, execDone := 0
    enrichWaiting := 3, enrichRunning := 1, enrichDone := 0
    execAvail := 0, enrichAvail := 4 }

/-! ### Startup crash recovery
(recover_unfinished_tmp_files, src/app/services/execution_service.py
lines 178-202) -/

/-- Recovery treatment of one prepared WAL row: if its temp file exists
and is non-empty, rename it onto the recorded destination and mark the row
committed; otherwise mark the row cleaned and remove any (necessarily
empty) leftover temp file. The exception arm of the code handles
filesystem errors; rename and remove are total in this embedding, so that
arm is unreachable here. -/
def recoverRow (fs : Fs) (r : WalRow) : Fs × WalRow :=
  if fsNonEmptyAt fs r.tmp_path then
    (fsRename fs r.tmp_path r.dest_path, { r with status := SagaLogStatus.committed })
  else
    (fsRemove fs r.tmp_path, { r with status := SagaLogStatus.cleaned })

/-- One recovery pass: the select picks the rows with status prepared and
processes them in order against the evolving filesystem; all other rows
are untouched. -/
def recoverPass (fs : Fs) (rows : List WalRow) : Fs × List WalRow :=
  match rows with
  | [] => (fs, [])
  | r :: rest =>
    if r.status = SagaLogStatus.prepared then
      let p := recoverRow fs r
      let q := recoverPass p.1 rest
      (q.1, p.2 :: q.2)
    else
      let q := recoverPass fs rest
      (q.1, r :: q.2)

/-- Path separation among the rows of a pass: temp and destination paths
of distinct prepared rows do not collide, and no prepared row has its temp
path equal to its destination. The saga always derives the temp path as
the destination plus a .tmp suffix, and destinations are unique per plan,
so recovery runs under this hypothesis. -/
def sepRows (rows : List WalRow) : Prop :=
  rows.Pairwise (fun a b => a.status = SagaLogStatus.prepared →
    b.status = SagaLogStatus.prepared →
    a.tmp_path ≠ b.tmp_path ∧ a.tmp_path ≠ b.dest_path
    ∧ a.dest_path ≠ b.tmp_path ∧ a.dest_path ≠ b.dest_path)
  ∧ ∀ r ∈ rows, r.status = SagaLogStatus.prepared → r.tmp_path ≠ r.dest_path

/-- What one recovery pass guarantees for each row, relative to the
filesystem fs0 at the start of the pass and the filesystem fsF at its end:
a prepared row ends committed exactly when its temp file was non-empty at
the start (cleaned otherwise), no file remains at its temp path, and in
the committed case the destination holds the former temp file; a
non-prepared row is untouched; no row ends prepared. -/
def recoveredRel (fs0 fsF : Fs) (r rout : WalRow) : Prop :=
  (r.status = SagaLogStatus.prepared →
    rout.status = (if fsNonEmptyAt fs0 r.tmp_path then SagaLogStatus.committed
                   else SagaLogStatus.cleaned)
    ∧ fsLookup fsF r.tmp_path = none
    ∧ (fsNonEmptyAt fs0 r.tmp_path = true →
        fsLookup fsF r.dest_path = fsLookup fs0 r.tmp_path))
  ∧ (r.status ≠ SagaLogStatus.prepared → rout = r)
  ∧ rout.status ≠ SagaLogStatus.prepared

/-- Rows for the C1 witness: a prepared row whose 3-byte temp file
survived the crash, a prepared row whose temp file is lost, and an
already committed row. -/
def c1rows : List WalRow :=
  [{ plan_id := "p1", src_path := "s1", tmp_path := "a.tmp", dest_path := "a"
     status := SagaLogStatus.prepared, error := none },
   { plan_id := "p2", src_path := "s2", tmp_path := "b.tmp", dest_path := "b"
     status := SagaLogStatus.prepared, error := none },
   { plan_id := "p3", src_path := "s3", tmp_path := "c.tmp", dest_path := "c"
     status := SagaLogStatus.committed, error := none }]

/-! ### Theorems -/

theorem find_filter_ne_eq_none (fs : Fs) (p : FPath) :
    (fs.filter (fun e => e.1 != p)).find? (fun e => e.1 == p) = none := by
  rw [List.find?_eq_none]
  intro x hx
  have hkeep := List.of_mem_filter hx
  simpa using hkeep

theorem find_filter_ne (t : Fs) (p q : FPath) (h : q ≠ p) :
    (t.filter (fun e => e.1 != p)).find? (fun e => e.1 == q)
      = t.find? (fun e => e.1 == q) := by
  induction t with
  | nil => rfl
  | cons e t ih =>
    rw [List.filter_cons]
    by_cases he : (e.1 != p) = true
    · rw [if_pos he]
      cases hq : (e.1 == q) with
      | true => simp only [List.find?_cons, hq]
      | false =>
        simp only [List.find?_cons, hq]
        exact ih
    · rw [if_neg he]
      have hep : e.1 = p := by simpa using he
      have hq : (e.1 == q) = false := by
        simp only [beq_eq_false_iff_ne, ne_eq]
        intro hqq
        exact h (by rw [← hqq, hep])
      simp only [List.find?_cons, hq]
      exact ih

theorem fsLookup_fsRemove_self (fs : Fs) (p : FPath) :
    fsLookup (fsRemove fs p) p = none := by
  simp [fsLookup, fsRemove, find_filter_ne_eq_none]

theorem fsLookup_fsRemove_ne (fs : Fs) (p q : FPath) (h : q ≠ p) :
    fsLookup (fsRemove fs p) q = fsLookup fs q := by
  unfold fsLookup fsRemove
  rw [find_filter_ne fs p q h]

theorem fsLookup_fsWrite_self (fs : Fs) (p : FPath) (n : Nat) :
    fsLookup (fsWrite fs p n) p = some n := by
  unfold fsLookup fsWrite fsRemove
  rw [List.find?_append, find_filter_ne_eq_none, Option.none_or]
  simp

theorem fsLookup_fsWrite_ne (fs : Fs) (p q : FPath) (n : Nat) (h : q ≠ p) :
    fsLookup (fsWrite fs p n) q = fsLookup fs q := by
  unfold fsLookup fsWrite fsRemove
  rw [List.find?_append, find_filter_ne fs p q h]
  have h2 : List.find? (fun e => e.1 == q) [(p, n)] = none := by
    simp
    exact fun hq => h hq.symm
  rw [h2]
  cases List.find? (fun e => e.1 == q) fs <;> rfl

/-- The saga skips everything when the destination already exists
non-empty: the attempt returns completed with no WAL row, an unchanged
filesystem and only the two plan-status events in its trace. -/
theorem sagaAttempt_skip (target : FPath) (fs : Fs) (tOk : Bool)
    (h : fsNonEmptyAt fs target = true) :
    sagaAttempt target fs true tOk =
      { fs := fs, plan_status := PlanStatus.completed, execution_log := ""
        wal := none, trace := [Ev.planExecuting, Ev.planCompleted] } := by
  unfold sagaAttempt
  simp [h]

/-- After any attempt that reports completed, the destination exists and
is non-empty. -/
theorem sagaAttempt_completed_dest (target : FPath) (fs : Fs) (tOk : Bool)
    (h : (sagaAttempt target fs true tOk).plan_status = PlanStatus.completed) :
    fsNonEmptyAt (sagaAttempt target fs true tOk).fs target = true := by
  unfold sagaAttempt at h ⊢
  by_cases hne : fsNonEmptyAt fs target
  · simp [hne]
  · simp only [Bool.not_eq_true] at hne
    cases hl : fsLookup fs target with
    | none => simp [hne, hl] at h
    | some sz =>
      -- The destination is not non-empty but exists, so its size is 0 and
      -- the attempt fails verification: it cannot report completed.
      have hsz : sz = 0 := by
        simp [fsNonEmptyAt, hl] at hne
        omega
      simp [hne, hl, hsz] at h

/-- Claim C2: within one execution attempt, WAL-prepared precedes every
filesystem mutation (temp write and rename), every mutation precedes
WAL-committed, and WAL-committed precedes plan-completed. The trace of any
attempt, over any filesystem, lock outcome and transcode outcome,
satisfies the ordering scan. -/
theorem c2_saga_event_order (target : FPath) (fs : Fs) (lockOk transcodeOk : Bool) :
    traceOrdered (sagaAttempt target fs lockOk transcodeOk).trace false false false = true := by
  unfold sagaAttempt
  dsimp only
  repeat' split
  all_goals rfl

/-- Claim C8: when the destination lock cannot be acquired within the
bounded wait, the attempt fails closed: plan_status = failed with
execution_log "Lock timeout", the filesystem is untouched, no WAL row is
written and the trace holds no filesystem write and no WAL-committed
event. -/
theorem c8_lock_timeout_fail_closed (target : FPath) (fs : Fs) (transcodeOk : Bool) :
    (sagaAttempt target fs false transcodeOk).plan_status = PlanStatus.failed
    ∧ (sagaAttempt target fs false transcodeOk).execution_log = "Lock timeout"
    ∧ (sagaAttempt target fs false transcodeOk).fs = fs
    ∧ (sagaAttempt target fs false transcodeOk).wal = none
    ∧ (sagaAttempt target fs false transcodeOk).trace.all (fun e => !isFsWrite e) = true
    ∧ (sagaAttempt target fs false transcodeOk).trace.all (fun e => !isCommitEv e) = true :=
  ⟨rfl, rfl, rfl, rfl, rfl, rfl⟩

/-- Claim C3: saga idempotence. When the destination already exists
non-empty the attempt skips all remaining steps: no WAL row, no filesystem
write, plan completed; and after any attempt that reports completed, a
second attempt performs no filesystem write, leaves the filesystem as is
and reports completed again. -/
theorem c3_saga_idempotence (target : FPath) (fs : Fs) (tOk tOk2 : Bool) :
    (fsNonEmptyAt fs target = true →
      (sagaAttempt target fs true tOk).plan_status = PlanStatus.completed
      ∧ (sagaAttempt target fs true tOk).wal = none
      ∧ (sagaAttempt target fs true tOk).fs = fs
      ∧ (sagaAttempt target fs true tOk).trace.all (fun e => !isFsWrite e) = true)
    ∧ ((sagaAttempt target fs true tOk).plan_status = PlanStatus.completed →
      (sagaAttempt target (sagaAttempt target fs true tOk).fs true tOk2).plan_status
          = PlanStatus.completed
      ∧ (sagaAttempt target (sagaAttempt target fs true tOk).fs true tOk2).fs
          = (sagaAttempt target fs true tOk).fs
      ∧ (sagaAttempt target (sagaAttempt target fs true tOk).fs true tOk2).trace.all
          (fun e => !isFsWrite e) = true) := by
  constructor
  · intro h
    rw [sagaAttempt_skip target fs tOk h]
    exact ⟨rfl, rfl, rfl, rfl⟩
  · intro h
    have hd := sagaAttempt_completed_dest target fs tOk h
    rw [sagaAttempt_skip target _ tOk2 hd]
    exact ⟨rfl, rfl, rfl⟩

/-- Witness for C3 at a concrete input: a destination that already holds a
7-byte file. -/
theorem c3_witness :
    ((sagaAttempt "out.mkv" [("out.mkv", 7)] true true).plan_status = PlanStatus.completed
      ∧ (sagaAttempt "out.mkv" [("out.mkv", 7)] true true).wal = none
      ∧ (sagaAttempt "out.mkv" [("out.mkv", 7)] true true).fs = [("out.mkv", 7)]
      ∧ (sagaAttempt "out.mkv" [("out.mkv", 7)] true true).trace.all
          (fun e => !isFsWrite e) = true)
    ∧ (sagaAttempt "out.mkv"
        (sagaAttempt "out.mkv" [("out.mkv", 7)] true true).fs true true).plan_status
        = PlanStatus.completed :=
  ⟨(c3_saga_idempotence "out.mkv" [("out.mkv", 7)] true true).1 rfl,
   ((c3_saga_idempotence "out.mkv" [("out.mkv", 7)] true true).2
     ((c3_saga_idempotence "out.mkv" [("out.mkv", 7)] true true).1 rfl).1).1⟩

/-- Claim C4: quality gate, literal case. For the plan whose encode args
hold bitrate 1000 and threshold 90, a perceptual score of 85 yields
failed_quality_check = true, plan_status = failed and bitrate 2000, while
a score of 95 yields failed_quality_check = false, plan_status = completed
and the bitrate unchanged at 1000. -/
theorem c4_quality_gate_literal :
    ((check_and_update_quality demoPlan ⟨some 85, none⟩ 90).failed_quality_check = true
      ∧ (check_and_update_quality demoPlan ⟨some 85, none⟩ 90).plan_status = PlanStatus.failed
      ∧ (check_and_update_quality demoPlan ⟨some 85, none⟩ 90).ffmpeg_args
          = some [("bitrate", "2000")])
    ∧ ((check_and_update_quality demoPlan ⟨some 95, none⟩ 90).failed_quality_check = false
      ∧ (check_and_update_quality demoPlan ⟨some 95, none⟩ 90).plan_status = PlanStatus.completed
      ∧ (check_and_update_quality demoPlan ⟨some 95, none⟩ 90).ffmpeg_args
          = some [("bitrate", "1000")]) := by
  decide

/-- Claim C5, counterexample: with the probe result absent (vmaf = None),
check_and_update_quality does set failed_quality_check = false together
with plan_status = completed, contradicting the claim that an absent score
is recorded as neither pass nor fail. -/
theorem c5_counterexample :
    (check_and_update_quality demoPlan ⟨none, none⟩ 90).failed_quality_check = false
    ∧ (check_and_update_quality demoPlan ⟨none, none⟩ 90).plan_status = PlanStatus.completed := by
  decide

/-- Claim C5, amended: when the quality probe fails and the perceptual
score is absent (vmaf = None), the guardrail records the outcome as a pass:
failed_quality_check = false, plan_status = completed, and the encode
arguments are left untouched, for every plan and every threshold. -/
theorem c5_amended_absent_score_is_pass (plan : GPlan) (metrics : QualityMetrics)
    (m : ℚ) (h : metrics.vmaf = none) :
    (check_and_update_quality plan metrics m).failed_quality_check = false
    ∧ (check_and_update_quality plan metrics m).plan_status = PlanStatus.completed
    ∧ (check_and_update_quality plan metrics m).ffmpeg_args = plan.ffmpeg_args := by
  simp [check_and_update_quality, h]

/-- Witness for the amended C5 at a concrete input. -/
theorem c5_amended_witness :
    (⟨none, none⟩ : QualityMetrics).vmaf = none
    ∧ ((check_and_update_quality demoPlan ⟨none, none⟩ 90).failed_quality_check = false
      ∧ (check_and_update_quality demoPlan ⟨none, none⟩ 90).plan_status = PlanStatus.completed
      ∧ (check_and_update_quality demoPlan ⟨none, none⟩ 90).ffmpeg_args = demoPlan.ffmpeg_args) :=
  ⟨rfl, c5_amended_absent_score_is_pass demoPlan ⟨none, none⟩ 90 rfl⟩

/-- Claim C10: on a failing quality check (score present and below the
threshold), a non-empty encode dict without a bitrate key gets bitrate 2000
inserted (double the implicit default 1000), while an absent or empty
encode dict is left unchanged even though failed_quality_check = true and
plan_status = failed are still set. -/
theorem c10_bitrate_escalation_default (plan : GPlan) (metrics : QualityMetrics)
    (v m : ℚ) (hv : metrics.vmaf = some v) (hlt : v < m) :
    (∀ d, plan.ffmpeg_args = some d → d ≠ [] →
      d.find? (fun p => p.1 == "bitrate") = none →
      (check_and_update_quality plan metrics m).ffmpeg_args = some (d ++ [("bitrate", "2000")])
      ∧ (check_and_update_quality plan metrics m).failed_quality_check = true
      ∧ (check_and_update_quality plan metrics m).plan_status = PlanStatus.failed)
    ∧ (plan.ffmpeg_args = none ∨ plan.ffmpeg_args = some [] →
      (check_and_update_quality plan metrics m).ffmpeg_args = plan.ffmpeg_args
      ∧ (check_and_update_quality plan metrics m).failed_quality_check = true
      ∧ (check_and_update_quality plan metrics m).plan_status = PlanStatus.failed) := by
  constructor
  · intro d hd hne hfind
    simp [check_and_update_quality, hv, hlt, hd, pyTruthy, bumpBitrate, dictSet, dictGet,
      hfind, List.isEmpty_iff, hne]
    decide
  · intro hargs
    rcases hargs with h | h <;>
      simp [check_and_update_quality, hv, hlt, h, pyTruthy]

/-- Witness for C10 at concrete inputs: a plan whose encode dict has one
unrelated key and no bitrate key, and a plan with an empty encode dict. -/
theorem c10_witness :
    ((⟨some 85, none⟩ : QualityMetrics).vmaf = some 85 ∧ (85 : ℚ) < 90)
    ∧ (let plan : GPlan :=
        { ffmpeg_args := some [("vcodec", "libx264")]
          failed_quality_check := false
          plan_status := PlanStatus.executing
          quality_metrics := none }
       (check_and_update_quality plan ⟨some 85, none⟩ 90).ffmpeg_args
          = some [("vcodec", "libx264"), ("bitrate", "2000")])
    ∧ (let plan0 : GPlan :=
        { ffmpeg_args := some []
          failed_quality_check := false
          plan_status := PlanStatus.executing
          quality_metrics := none }
       (check_and_update_quality plan0 ⟨some 85, none⟩ 90).ffmpeg_args = some []) := by
  refine ⟨⟨rfl, by norm_num⟩, ?_, ?_⟩
  · exact ((c10_bitrate_escalation_default _ ⟨some 85, none⟩ 85 90 rfl (by norm_num)).1
      [("vcodec", "libx264")] rfl (by simp) rfl).1
  · exact ((c10_bitrate_escalation_default _ ⟨some 85, none⟩ 85 90 rfl (by norm_num)).2
      (Or.inr rfl)).1

/-- Every failure-state of the table, and the forced error state, is
outside the table: STATE_MAP has no entry for it. -/
theorem STATE_MAP_fail_none (s : String) (info : StateInfo)
    (h : STATE_MAP s = some info) : STATE_MAP info.fail = none := by
  unfold STATE_MAP at h
  repeat' split at h
  all_goals first
    | (injection h with h1; subst h1; decide)
    | cases h

/-- The result of a failing dispatch is never actionable. -/
theorem dispatchFailure_not_actionable (item : Item) (info : StateInfo)
    (h : STATE_MAP item.state = some info) :
    STATE_MAP (dispatchFailure item info).state = none := by
  unfold dispatchFailure
  by_cases h3 : item.retry_count + 1 > 3
  · simp only [h3, if_pos]
    decide
  · simp only [h3, if_neg]
    exact STATE_MAP_fail_none _ _ h

/-- An item whose state is not in the table is never changed by a poll
cycle. -/
theorem failCycles_fixed (n : Nat) (it : Item) (h : STATE_MAP it.state = none) :
    failCycles n it = it := by
  induction n with
  | zero => rfl
  | succ n ih =>
    have hstep : cycleStep false "FAILURE" it = it := by
      unfold cycleStep
      rw [h]
    show failCycles n (cycleStep false "FAILURE" it) = it
    rw [hstep, ih]

/-- Claim C6, failing input: dispatch writes state strings that are not
members of the FileState enum. A successful classifier dispatch on an item
in state scanned writes classified; a failing enricher dispatch writes
enrichment_failed; the executor first touch writes executing; none of the
three is a FileState member, so the state-set invariant the claim asserts
does not hold for these assignments. -/
theorem c6_state_enum_violation :
    STATE_MAP "scanned" = some { service := "classifier", next := "classified", fail := "error" }
    ∧ (cycleStep true "" { state := "scanned", retry_count := 0, celery_task_id := none }).state
        = "classified"
    ∧ isFileState "classified" = false
    ∧ (cycleStep false "" { state := "classified", retry_count := 0, celery_task_id := none }).state
        = "enrichment_failed"
    ∧ isFileState "enrichment_failed" = false
    ∧ (cycleStep true "" { state := "planned", retry_count := 0, celery_task_id := none }).state
        = "executing"
    ∧ isFileState "executing" = false
    ∧ isFileState "scanned" = true := by
  decide

/-- Claim C7, counterexample: an item at the enricher stage (state
classified, retry_count 0) whose handler fails on every cycle is, after 4
poll cycles, in state enrichment_failed with retry_count 1 — not in state
error with retry_count greater than 3. The first failure moves it to a
state outside the table, so it is never dispatched again. -/
theorem c7_counterexample :
    (failCycles 4 { state := "classified", retry_count := 0, celery_task_id := none }).state
      = "enrichment_failed"
    ∧ (failCycles 4 { state := "classified", retry_count := 0, celery_task_id := none
        }).retry_count = 1
    ∧ ¬ ((failCycles 4 { state := "classified", retry_count := 0, celery_task_id := none
          }).state = "error"
        ∧ 3 < (failCycles 4 { state := "classified", retry_count := 0, celery_task_id := none
          }).retry_count) := by
  decide

/-- Claim C7, amended: in per-item dispatch at a non-executor stage, a
handler failure increments retry_count and moves the item to the failure
state, forced to error when retry_count then exceeds 3; a handler success
advances to the next-state and resets retry_count to 0. But the failure
state of every table entry is not itself a table key, so after one failing
dispatch the item is never dispatched again: an item with an always
failing handler ends, after any number of cycles from retry_count 0, in
its failure-state with retry_count 1, and cannot reach state error with
retry_count greater than 3 through consecutive cycles. -/
theorem c7_amended_retry_escalation (item : Item) (info : StateInfo) (n : Nat)
    (hmap : STATE_MAP item.state = some info) (hsvc : info.service ≠ "executor")
    (hn : 1 ≤ n) :
    cycleStep true "" item = dispatchSuccess item info
    ∧ (dispatchSuccess item info).retry_count = 0
    ∧ (dispatchSuccess item info).state = info.next
    ∧ cycleStep false "FAILURE" item = dispatchFailure item info
    ∧ (dispatchFailure item info).retry_count = item.retry_count + 1
    ∧ (dispatchFailure item info).state
        = (if 3 < item.retry_count + 1 then "error" else info.fail)
    ∧ STATE_MAP (dispatchFailure item info).state = none
    ∧ failCycles n item = dispatchFailure item info
    ∧ (item.retry_count = 0 →
        (failCycles n item).retry_count = 1 ∧ (failCycles n item).state = info.fail) := by
  have hsucc : cycleStep true "" item = dispatchSuccess item info := by
    unfold cycleStep
    rw [hmap]
    dsimp only
    rw [if_neg hsvc]
    rfl
  have hfail : cycleStep false "FAILURE" item = dispatchFailure item info := by
    unfold cycleStep
    rw [hmap]
    dsimp only
    rw [if_neg hsvc]
    rfl
  have hstuck : failCycles n item = dispatchFailure item info := by
    cases n with
    | zero => omega
    | succ m =>
      show failCycles m (cycleStep false "FAILURE" item) = _
      rw [hfail]
      exact failCycles_fixed m _ (dispatchFailure_not_actionable item info hmap)
  have hrc : (dispatchFailure item info).retry_count = item.retry_count + 1 := by
    unfold dispatchFailure
    by_cases h3 : item.retry_count + 1 > 3 <;> simp [h3]
  refine ⟨hsucc, rfl, rfl, hfail, hrc, ?_, dispatchFailure_not_actionable item info hmap,
    hstuck, ?_⟩
  · unfold dispatchFailure
    by_cases h3 : 3 < item.retry_count + 1
    · simp [h3]
    · simp [h3]
  · intro h0
    rw [hstuck]
    unfold dispatchFailure
    rw [h0]
    constructor <;> rfl

/-- Witness for the amended C7 at a concrete input: the enricher stage
item, 4 cycles. -/
theorem c7_amended_witness :
    (STATE_MAP "classified"
        = some { service := "enricher", next := "enriched", fail := "enrichment_failed" })
    ∧ (failCycles 4 { state := "classified", retry_count := 0, celery_task_id := none
        }).retry_count = 1
    ∧ (failCycles 4 { state := "classified", retry_count := 0, celery_task_id := none
        }).state = "enrichment_failed" :=
  ⟨rfl,
   ((c7_amended_retry_escalation
      { state := "classified", retry_count := 0, celery_task_id := none }
      { service := "enricher", next := "enriched", fail := "enrichment_failed" } 4
      rfl (by decide) (by decide)).2.2.2.2.2.2.2.2 rfl).1,
   ((c7_amended_retry_escalation
      { state := "classified", retry_count := 0, celery_task_id := none }
      { service := "enricher", next := "enriched", fail := "enrichment_failed" } 4
      rfl (by decide) (by decide)).2.2.2.2.2.2.2.2 rfl).2⟩

theorem schedInv_init (nExec nEnrich : Nat) : SchedInv (initSched nExec nEnrich) := by
  constructor <;> rfl

theorem schedInv_step {s t : SchedState} (hs : SchedInv s) (hstep : SchedStep s t) :
    SchedInv t := by
  rcases hs with ⟨he, hn⟩
  cases hstep with
  | startExec hw ha => exact ⟨by dsimp only; omega, by dsimp only; omega⟩
  | finishExec hr => exact ⟨by dsimp only; omega, by dsimp only; omega⟩
  | startEnrich hw ha => exact ⟨by dsimp only; omega, by dsimp only; omega⟩
  | finishEnrich hr => exact ⟨by dsimp only; omega, by dsimp only; omega⟩

theorem schedInv_reach {s0 s : SchedState} (h0 : SchedInv s0) (h : SchedReach s0 s) :
    SchedInv s := by
  induction h with
  | refl => exact h0
  | step hr hstep ih => exact schedInv_step ih hstep

/-- Claim C9: with the execution limiter sized 2, in every state the
scheduler can reach from the start of a poll cycle — whatever the number
of executor and enricher dispatches and whatever the interleaving — at
most 2 executor dispatches are running, independent of the enrichment
limiter load (which is itself bounded by 5). -/
theorem c9_bounded_execution_concurrency (nExec nEnrich : Nat) (s : SchedState)
    (h : SchedReach (initSched nExec nEnrich) s) :
    s.execRunning ≤ 2 ∧ s.enrichRunning ≤ 5 := by
  have hinv := schedInv_reach (schedInv_init nExec nEnrich) h
  rcases hinv with ⟨he, hn⟩
  omega

/-- Witness for C9 at a concrete reachable state. -/
theorem c9_witness :
    SchedReach (initSched 3 4) busyState ∧ busyState.execRunning ≤ 2 := by
  have h1 : SchedStep (initSched 3 4)
      { execWaiting := 2, execRunning := 1, execDone := 0
        enrichWaiting := 4, enrichRunning := 0, enrichDone := 0
        execAvail := 1, enrichAvail := 5 } :=
    SchedStep.startExec (initSched 3 4) (by decide) (by decide)
  have h2 : SchedStep
      { execWaiting := 2, execRunning := 1, execDone := 0
        enrichWaiting := 4, enrichRunning := 0, enrichDone := 0
        execAvail := 1, enrichAvail := 5 }
      { execWaiting := 1, execRunning := 2, execDone := 0
        enrichWaiting := 4, enrichRunning := 0, enrichDone := 0
        execAvail := 0, enrichAvail := 5 } :=
    SchedStep.startExec _ (by decide) (by decide)
  have h3 : SchedStep
      { execWaiting := 1, execRunning := 2, execDone := 0
        enrichWaiting := 4, enrichRunning := 0, enrichDone := 0
        execAvail := 0, enrichAvail := 5 } busyState :=
    SchedStep.startEnrich _ (by decide) (by decide)
  have hreach : SchedReach (initSched 3 4) busyState :=
    SchedReach.step (SchedReach.step (SchedReach.step SchedReach.refl h1) h2) h3
  exact ⟨hreach, (c9_bounded_execution_concurrency 3 4 _ hreach).1⟩

theorem fsNonEmptyAt_congr {fs fs' : Fs} {p : FPath}
    (h : fsLookup fs p = fsLookup fs' p) :
    fsNonEmptyAt fs p = fsNonEmptyAt fs' p := by
  unfold fsNonEmptyAt
  rw [h]

theorem recoverRow_pos (fs : Fs) (r : WalRow)
    (h : fsNonEmptyAt fs r.tmp_path = true) :
    recoverRow fs r
      = (fsRename fs r.tmp_path r.dest_path,
         { r with status := SagaLogStatus.committed }) := by
  unfold recoverRow
  rw [if_pos h]

theorem recoverRow_neg (fs : Fs) (r : WalRow)
    (h : fsNonEmptyAt fs r.tmp_path = false) :
    recoverRow fs r
      = (fsRemove fs r.tmp_path, { r with status := SagaLogStatus.cleaned }) := by
  unfold recoverRow
  rw [if_neg (by simp [h])]

theorem recoverRow_preserve (fs : Fs) (r : WalRow) (q : FPath)
    (h1 : q ≠ r.tmp_path) (h2 : q ≠ r.dest_path) :
    fsLookup (recoverRow fs r).1 q = fsLookup fs q := by
  cases hne : fsNonEmptyAt fs r.tmp_path with
  | true =>
    rw [recoverRow_pos fs r hne]
    dsimp only
    unfold fsRename
    cases hl : fsLookup fs r.tmp_path with
    | none => rfl
    | some n =>
      dsimp only
      rw [fsLookup_fsWrite_ne _ _ _ _ h2, fsLookup_fsRemove_ne _ _ _ h1]
  | false =>
    rw [recoverRow_neg fs r hne]
    dsimp only
    exact fsLookup_fsRemove_ne _ _ _ h1

theorem recoverRow_tmp_gone (fs : Fs) (r : WalRow) (h : r.tmp_path ≠ r.dest_path) :
    fsLookup (recoverRow fs r).1 r.tmp_path = none := by
  cases hne : fsNonEmptyAt fs r.tmp_path with
  | true =>
    rw [recoverRow_pos fs r hne]
    dsimp only
    unfold fsRename
    cases hl : fsLookup fs r.tmp_path with
    | none => exact hl
    | some n =>
      dsimp only
      rw [fsLookup_fsWrite_ne _ _ _ _ h, fsLookup_fsRemove_self]
  | false =>
    rw [recoverRow_neg fs r hne]
    dsimp only
    exact fsLookup_fsRemove_self fs r.tmp_path

theorem recoverRow_dest (fs : Fs) (r : WalRow)
    (hne : fsNonEmptyAt fs r.tmp_path = true) :
    fsLookup (recoverRow fs r).1 r.dest_path = fsLookup fs r.tmp_path := by
  rw [recoverRow_pos fs r hne]
  dsimp only
  unfold fsRename
  cases hl : fsLookup fs r.tmp_path with
  | none =>
    exfalso
    simp [fsNonEmptyAt, hl] at hne
  | some n =>
    dsimp only
    rw [fsLookup_fsWrite_self]

theorem recoverRow_status_not_prepared (fs : Fs) (r : WalRow) :
    (recoverRow fs r).2.status ≠ SagaLogStatus.prepared := by
  cases hne : fsNonEmptyAt fs r.tmp_path with
  | true =>
    rw [recoverRow_pos fs r hne]
    simp
  | false =>
    rw [recoverRow_neg fs r hne]
    simp

theorem recoverPass_cons_prepared (fs : Fs) (r : WalRow) (rest : List WalRow)
    (hp : r.status = SagaLogStatus.prepared) :
    recoverPass fs (r :: rest)
      = ((recoverPass (recoverRow fs r).1 rest).1,
         (recoverRow fs r).2 :: (recoverPass (recoverRow fs r).1 rest).2) := by
  show (if r.status = SagaLogStatus.prepared then
      ((recoverPass (recoverRow fs r).1 rest).1,
       (recoverRow fs r).2 :: (recoverPass (recoverRow fs r).1 rest).2)
    else ((recoverPass fs rest).1, r :: (recoverPass fs rest).2)) = _
  rw [if_pos hp]

theorem recoverPass_cons_other (fs : Fs) (r : WalRow) (rest : List WalRow)
    (hp : ¬ r.status = SagaLogStatus.prepared) :
    recoverPass fs (r :: rest)
      = ((recoverPass fs rest).1, r :: (recoverPass fs rest).2) := by
  show (if r.status = SagaLogStatus.prepared then
      ((recoverPass (recoverRow fs r).1 rest).1,
       (recoverRow fs r).2 :: (recoverPass (recoverRow fs r).1 rest).2)
    else ((recoverPass fs rest).1, r :: (recoverPass fs rest).2)) = _
  rw [if_neg hp]

theorem recoverPass_preserve (rows : List WalRow) (fs : Fs) (q : FPath)
    (h : ∀ r ∈ rows, r.status = SagaLogStatus.prepared →
      q ≠ r.tmp_path ∧ q ≠ r.dest_path) :
    fsLookup (recoverPass fs rows).1 q = fsLookup fs q := by
  induction rows generalizing fs with
  | nil => rfl
  | cons r rest ih =>
    by_cases hp : r.status = SagaLogStatus.prepared
    · rw [recoverPass_cons_prepared fs r rest hp]
      dsimp only
      rw [ih _ (fun r' hm hp' => h r' (List.mem_cons_of_mem _ hm) hp')]
      rcases h r (List.mem_cons_self _ _) hp with ⟨h1, h2⟩
      exact recoverRow_preserve fs r q h1 h2
    · rw [recoverPass_cons_other fs r rest hp]
      dsimp only
      exact ih _ (fun r' hm hp' => h r' (List.mem_cons_of_mem _ hm) hp')

theorem recoverPass_aux (rows : List WalRow) (fs0 : Fs) (fs : Fs)
    (hagree : ∀ r ∈ rows, r.status = SagaLogStatus.prepared →
      fsLookup fs r.tmp_path = fsLookup fs0 r.tmp_path)
    (hsep : sepRows rows) :
    List.Forall₂ (recoveredRel fs0 (recoverPass fs rows).1) rows (recoverPass fs rows).2 := by
  induction rows generalizing fs with
  | nil => exact List.Forall₂.nil
  | cons r rest ih =>
    rcases hsep with ⟨hpw, hself⟩
    rw [List.pairwise_cons] at hpw
    rcases hpw with ⟨hhead, hpwrest⟩
    have hsep' : sepRows rest :=
      ⟨hpwrest, fun r' hm hp => hself r' (List.mem_cons_of_mem _ hm) hp⟩
    by_cases hp : r.status = SagaLogStatus.prepared
    · rw [recoverPass_cons_prepared fs r rest hp]
      dsimp only
      have hagree_head := hagree r (List.mem_cons_self _ _) hp
      have hself_head := hself r (List.mem_cons_self _ _) hp
      have hagree' : ∀ r' ∈ rest, r'.status = SagaLogStatus.prepared →
          fsLookup (recoverRow fs r).1 r'.tmp_path = fsLookup fs0 r'.tmp_path := by
        intro r' hm hp'
        rcases hhead r' hm hp hp' with ⟨htt, htd, hdt, hdd⟩
        rw [recoverRow_preserve fs r r'.tmp_path (fun he => htt he.symm)
          (fun he => hdt he.symm)]
        exact hagree r' (List.mem_cons_of_mem _ hm) hp'
      refine List.Forall₂.cons ?_ (ih _ hagree' hsep')
      refine ⟨fun _ => ⟨?_, ?_, ?_⟩, fun hn => absurd hp hn,
        recoverRow_status_not_prepared fs r⟩
      · -- status of the processed row, relative to the start-of-pass fs
        unfold recoverRow
        rw [fsNonEmptyAt_congr hagree_head]
        cases fsNonEmptyAt fs0 r.tmp_path <;> rfl
      · -- no file remains at the temp path at the end of the pass
        have hgone : fsLookup (recoverRow fs r).1 r.tmp_path = none :=
          recoverRow_tmp_gone fs r hself_head
        rw [recoverPass_preserve rest _ r.tmp_path ?_]
        · exact hgone
        · intro r' hm hp'
          rcases hhead r' hm hp hp' with ⟨htt, htd, hdt, hdd⟩
          exact ⟨htt, htd⟩
      · -- in the committed case the destination holds the former temp file
        intro hne0
        have hne : fsNonEmptyAt fs r.tmp_path = true := by
          rw [fsNonEmptyAt_congr hagree_head]
          exact hne0
        rw [recoverPass_preserve rest _ r.dest_path ?_]
        · rw [recoverRow_dest fs r hne]
          exact hagree_head
        · intro r' hm hp'
          rcases hhead r' hm hp hp' with ⟨htt, htd, hdt, hdd⟩
          exact ⟨hdt, hdd⟩
    · rw [recoverPass_cons_other fs r rest hp]
      dsimp only
      have hagree' : ∀ r' ∈ rest, r'.status = SagaLogStatus.prepared →
          fsLookup fs r'.tmp_path = fsLookup fs0 r'.tmp_path :=
        fun r' hm hp' => hagree r' (List.mem_cons_of_mem _ hm) hp'
      refine List.Forall₂.cons ?_ (ih _ hagree' hsep')
      exact ⟨fun hpp => absurd hpp hp, fun _ => rfl, hp⟩

/-- Claim C1: crash recovery of the saga WAL. Under path separation of
the rows, after exactly one recovery pass every row that was prepared at
the start is committed (when its recorded temp file existed non-empty, in
which case the destination now holds that file) or cleaned (otherwise),
no file remains at its recorded temp path, every other row is untouched,
and no row is left prepared. -/
theorem c1_recovery_pass (fs : Fs) (rows : List WalRow) (hsep : sepRows rows) :
    List.Forall₂ (recoveredRel fs (recoverPass fs rows).1) rows (recoverPass fs rows).2 :=
  recoverPass_aux rows fs fs (fun _ _ _ => rfl) hsep

/-- Witness for C1 at a concrete input, with the recovered statuses and
filesystem spelled out. -/
theorem c1_witness :
    sepRows c1rows
    ∧ List.Forall₂ (recoveredRel [("a.tmp", 3)] (recoverPass [("a.tmp", 3)] c1rows).1)
        c1rows (recoverPass [("a.tmp", 3)] c1rows).2
    ∧ (recoverPass [("a.tmp", 3)] c1rows).2.map (fun r => r.status)
        = [SagaLogStatus.committed, SagaLogStatus.cleaned, SagaLogStatus.committed]
    ∧ (recoverPass [("a.tmp", 3)] c1rows).1 = [("a", 3)] := by
  refine ⟨?_, c1_recovery_pass [("a.tmp", 3)] c1rows ?_, ?_, ?_⟩
  · constructor
    · decide
    · decide
  · constructor
    · decide
    · decide
  · decide
  · decide

end MediaRefinery
